import Mathlib

/-!
Shallow embedding of the tool-invocation-to-REST-request compiler and
response normalizer of the unifi-network-mcp server (src/index.ts).

Modelling conventions:
* JavaScript values carried in the argument map are modelled by `JVal`.
  Absence of a key (the JS `undefined`) is modelled by `Option JVal`
  being `none`.  Numbers are modelled as `Int` (every number appearing
  in the code and its invocations is integral; the code does no
  arithmetic on them, only truthiness tests and string coercion).
* JS truthiness (`if (x)`) is `truthy`, JS string coercion
  (template interpolation, `String(x)`) is `tsString`.
* `URLSearchParams.append`/`toString` is modelled by an ordered list of
  pairs rendered by `renderParams` with form-urlencoding;
  `encodeURIComponent` is modelled by `encodeURIComponent`.
-/

inductive JVal where
  | str (s : String)
  | num (n : Int)
  | bool (b : Bool)
  | null
  | arr (xs : List JVal)
  | obj (fields : List (String × JVal))

/-- JS truthiness of a possibly-undefined value: `undefined`, `null`,
`false`, `0` and the empty string are falsy; objects and arrays
(including empty ones) are truthy. -/
def truthy : Option JVal → Bool
  | none => false
  | some (.str s) => s ≠ ""
  | some (.num n) => n ≠ 0
  | some (.bool b) => b
  | some .null => false
  | some (.arr _) => true
  | some (.obj _) => true

mutual

/-- JS `String(x)` coercion for a defined value. -/
def tsStringVal : JVal → String
  | .str s => s
  | .num n => toString n
  | .bool b => cond b "true" "false"
  | .null => "null"
  | .arr xs => tsJoin xs
  | .obj _ => "\x5bobject Object\x5d"

/-- JS `Array.prototype.toString`: elements joined by commas. -/
def tsJoin : List JVal → String
  | [] => ""
  | [x] => tsElem x
  | x :: xs => tsElem x ++ "," ++ tsJoin xs

/-- Inside an array-to-string join, `null` contributes the empty string. -/
def tsElem : JVal → String
  | .null => ""
  | .str s => s
  | .num n => toString n
  | .bool b => cond b "true" "false"
  | .arr xs => tsJoin xs
  | .obj _ => "\x5bobject Object\x5d"

end

/-- JS `String(x)`, with `undefined` rendering as the literal text
`undefined` (as it does in template literals). -/
def tsString : Option JVal → String
  | none => "undefined"
  | some v => tsStringVal v

def hexDigit (n : Nat) : Char :=
  if n < 10 then Char.ofNat (48 + n) else Char.ofNat (55 + n)

def percentByte (b : Nat) : String :=
  "%" ++ String.singleton (hexDigit (b / 16)) ++ String.singleton (hexDigit (b % 16))

/-- UTF-8 bytes of a code point. -/
def utf8Bytes (n : Nat) : List Nat :=
  if n < 0x80 then [n]
  else if n < 0x800 then [0xC0 + n / 64, 0x80 + n % 64]
  else if n < 0x10000 then [0xE0 + n / 4096, 0x80 + (n / 64) % 64, 0x80 + n % 64]
  else [0xF0 + n / 262144, 0x80 + (n / 4096) % 64, 0x80 + (n / 64) % 64, 0x80 + n % 64]

/-- Characters kept verbatim by `URLSearchParams` serialization
(application/x-www-form-urlencoded). -/
def formSafe (c : Char) : Bool :=
  c.isAlphanum || c = '*' || c = '-' || c = '.' || c = '_'

def formEncodeChar (c : Char) : String :=
  if formSafe c then String.singleton c
  else if c = ' ' then "+"
  else String.join ((utf8Bytes c.toNat).map percentByte)

/-- `URLSearchParams` percent-encoding of one key or value. -/
def formUrlEncode (s : String) : String :=
  String.join (s.toList.map formEncodeChar)

/-- Characters kept verbatim by `encodeURIComponent`. -/
def uriComponentSafe (c : Char) : Bool :=
  c.isAlphanum || c = '-' || c = '_' || c = '.' || c = '!' || c = '~' ||
    c = '*' || c = Char.ofNat 39 || c = '(' || c = ')'

def encodeURIComponent (s : String) : String :=
  String.join (s.toList.map fun c =>
    if uriComponentSafe c then String.singleton c
    else String.join ((utf8Bytes c.toNat).map percentByte))

/-- The argument map of an invocation: string keys to JS values, with a
key simply absent to model `undefined`. -/
abbrev Args := List (String × JVal)

def getArg (args : Args) (k : String) : Option JVal :=
  List.lookup k args

/-- Template interpolation of one argument into a path. -/
def argStr (args : Args) (k : String) : String :=
  tsString (getArg args k)

/-- `URLSearchParams.toString()` over appended (key, value) pairs. -/
def renderParams (ps : List (String × String)) : String :=
  String.intercalate "&" (ps.map fun p => formUrlEncode p.1 ++ "=" ++ formUrlEncode p.2)

/-- The parameters appended by buildQueryString, in its fixed append
order: `offset` and `limit` when defined, then `filter` when truthy. -/
def queryParams (args : Args) : List (String × String) :=
  (if (getArg args "offset").isSome then [("offset", tsString (getArg args "offset"))] else [])
  ++ (if (getArg args "limit").isSome then [("limit", tsString (getArg args "limit"))] else [])
  ++ (if truthy (getArg args "filter") then [("filter", tsString (getArg args "filter"))] else [])

/-- The buildQueryString helper: serializes the appended parameters and
prefixes them with a question mark only when nonempty. -/
def buildQueryString (args : Args) : String :=
  let queryString := renderParams (queryParams args)
  if queryString ≠ "" then "?" ++ queryString else ""

/-- A JS record under construction: values may be `undefined`
(a `none` value is a property that `JSON.stringify` drops). -/
abbrev JRecord := List (String × Option JVal)

/-- Gate a field on a condition, preserving insertion order. -/
def fieldIf (c : Bool) (k : String) (v : Option JVal) : JRecord :=
  if c then [(k, v)] else []

/-- Body of unifi_authorize_guest: a fixed action discriminator plus
truthiness-gated optional limits. -/
def authBody (args : Args) : JRecord :=
  [("action", some (JVal.str "AUTHORIZE_GUEST_ACCESS"))]
  ++ fieldIf (truthy (getArg args "timeLimitMinutes")) "timeLimitMinutes" (getArg args "timeLimitMinutes")
  ++ fieldIf (truthy (getArg args "dataUsageLimitMBytes")) "dataUsageLimitMBytes" (getArg args "dataUsageLimitMBytes")
  ++ fieldIf (truthy (getArg args "rxRateLimitKbps")) "rxRateLimitKbps" (getArg args "rxRateLimitKbps")
  ++ fieldIf (truthy (getArg args "txRateLimitKbps")) "txRateLimitKbps" (getArg args "txRateLimitKbps")

/-- Body of unifi_create_network: all four fields assigned
unconditionally (an absent argument is an `undefined` property). -/
def networkBody (args : Args) : JRecord :=
  [("management", getArg args "management"),
   ("name", getArg args "name"),
   ("enabled", getArg args "enabled"),
   ("vlanId", getArg args "vlanId")]

/-- Body of unifi_update_network: `management` and `name` are gated on
truthiness, `enabled` and `vlanId` on being defined. -/
def updateNetworkBody (args : Args) : JRecord :=
  fieldIf (truthy (getArg args "management")) "management" (getArg args "management")
  ++ fieldIf (truthy (getArg args "name")) "name" (getArg args "name")
  ++ fieldIf (getArg args "enabled").isSome "enabled" (getArg args "enabled")
  ++ fieldIf (getArg args "vlanId").isSome "vlanId" (getArg args "vlanId")

/-- Endpoint of unifi_delete_network: the `cascade` and `force` flags
are appended as the literal value `true` only when truthy. -/
def deleteNetworkEndpoint (args : Args) : String :=
  let base := "/v1/sites/" ++ argStr args "siteId" ++ "/networks/" ++ argStr args "networkId"
  let ps := (if truthy (getArg args "cascade") then [("cascade", "true")] else [])
    ++ (if truthy (getArg args "force") then [("force", "true")] else [])
  let qs := renderParams ps
  if qs ≠ "" then base ++ "?" ++ qs else base

/-- Body of unifi_create_wifi: `type` defaults to STANDARD when falsy. -/
def wifiBody (args : Args) : JRecord :=
  [("type", if truthy (getArg args "type") then getArg args "type" else some (JVal.str "STANDARD")),
   ("name", getArg args "name"),
   ("enabled", getArg args "enabled"),
   ("broadcastingFrequenciesGHz", getArg args "broadcastingFrequenciesGHz")]

def updateWifiBody (args : Args) : JRecord :=
  fieldIf (truthy (getArg args "name")) "name" (getArg args "name")
  ++ fieldIf (getArg args "enabled").isSome "enabled" (getArg args "enabled")

def deleteWifiEndpoint (args : Args) : String :=
  let base := "/v1/sites/" ++ argStr args "siteId" ++ "/wifi/broadcasts/" ++ argStr args "wifiBroadcastId"
  if truthy (getArg args "force") then base ++ "?force=true" else base

/-- Body of unifi_create_voucher: `name` and `timeLimitMinutes`
unconditional, the remaining optionals gated on truthiness. -/
def voucherBody (args : Args) : JRecord :=
  [("name", getArg args "name"),
   ("timeLimitMinutes", getArg args "timeLimitMinutes")]
  ++ fieldIf (truthy (getArg args "count")) "count" (getArg args "count")
  ++ fieldIf (truthy (getArg args "authorizedGuestLimit")) "authorizedGuestLimit" (getArg args "authorizedGuestLimit")
  ++ fieldIf (truthy (getArg args "dataUsageLimitMBytes")) "dataUsageLimitMBytes" (getArg args "dataUsageLimitMBytes")
  ++ fieldIf (truthy (getArg args "rxRateLimitKbps")) "rxRateLimitKbps" (getArg args "rxRateLimitKbps")
  ++ fieldIf (truthy (getArg args "txRateLimitKbps")) "txRateLimitKbps" (getArg args "txRateLimitKbps")

/-- Endpoint of unifi_bulk_delete_vouchers: the filter argument is
coerced to a string and percent-encoded into the query. -/
def bulkDeleteVouchersEndpoint (args : Args) : String :=
  "/v1/sites/" ++ argStr args "siteId" ++ "/hotspot/vouchers?filter="
    ++ encodeURIComponent (tsString (getArg args "filter"))

/-- Body of unifi_create_firewall_zone: `networkIds` defaults to the
empty array when falsy. -/
def zoneBody (args : Args) : JRecord :=
  [("name", getArg args "name"),
   ("networkIds", if truthy (getArg args "networkIds") then getArg args "networkIds" else some (JVal.arr []))]

def updateZoneBody (args : Args) : JRecord :=
  [("name", getArg args "name"),
   ("networkIds", getArg args "networkIds")]

/-- Body of unifi_create_acl_rule: `type` defaults to IPV4 when falsy;
`description` and `protocolFilter` gated on truthiness. -/
def ruleBody (args : Args) : JRecord :=
  [("type", if truthy (getArg args "type") then getArg args "type" else some (JVal.str "IPV4")),
   ("name", getArg args "name"),
   ("enabled", getArg args "enabled"),
   ("action", getArg args "action"),
   ("index", getArg args "index")]
  ++ fieldIf (truthy (getArg args "description")) "description" (getArg args "description")
  ++ fieldIf (truthy (getArg args "protocolFilter")) "protocolFilter" (getArg args "protocolFilter")

def updateRuleBody (args : Args) : JRecord :=
  fieldIf (truthy (getArg args "type")) "type" (getArg args "type")
  ++ fieldIf (truthy (getArg args "name")) "name" (getArg args "name")
  ++ fieldIf (getArg args "enabled").isSome "enabled" (getArg args "enabled")
  ++ fieldIf (truthy (getArg args "action")) "action" (getArg args "action")
  ++ fieldIf (getArg args "index").isSome "index" (getArg args "index")
  ++ fieldIf (truthy (getArg args "description")) "description" (getArg args "description")

def listBody (args : Args) : JRecord :=
  [("type", getArg args "type"),
   ("name", getArg args "name"),
   ("items", getArg args "items")]

def updateListBody (args : Args) : JRecord :=
  fieldIf (truthy (getArg args "type")) "type" (getArg args "type")
  ++ fieldIf (truthy (getArg args "name")) "name" (getArg args "name")
  ++ fieldIf (truthy (getArg args "items")) "items" (getArg args "items")

/-- Query of unifi_list_wans: a bespoke builder recognizing only
`offset` and `limit`. -/
def wansQuery (args : Args) : String :=
  let ps := (if (getArg args "offset").isSome then [("offset", tsString (getArg args "offset"))] else [])
    ++ (if (getArg args "limit").isSome then [("limit", tsString (getArg args "limit"))] else [])
  let qs := renderParams ps
  if qs ≠ "" then "?" ++ qs else ""

/-- Outcome of the switch in the CallToolRequestSchema handler: either a
compiled request handed to unifiRequest, or the unknown-tool default. -/
inductive CallOutcome where
  | request (endpoint : String) (method : String) (body : Option JRecord)
  | unknownTool (name : String)

/-- The per-tool switch of the CallToolRequestSchema handler: maps a
tool name and argument map to the endpoint, method and body passed to
unifiRequest.  Path identifiers are interpolated with JS string
coercion (an absent argument renders as the text `undefined`). -/
def dispatch (name : String) (args : Args) : CallOutcome :=
  if name = "unifi_get_info" then
    .request "/v1/info" "GET" none
  else if name = "unifi_list_sites" then
    .request ("/v1/sites" ++ buildQueryString args) "GET" none
  else if name = "unifi_list_devices" then
    .request ("/v1/sites/" ++ argStr args "siteId" ++ "/devices" ++ buildQueryString args) "GET" none
  else if name = "unifi_get_device" then
    .request ("/v1/sites/" ++ argStr args "siteId" ++ "/devices/" ++ argStr args "deviceId") "GET" none
  else if name = "unifi_get_device_statistics" then
    .request ("/v1/sites/" ++ argStr args "siteId" ++ "/devices/" ++ argStr args "deviceId" ++ "/statistics/latest") "GET" none
  else if name = "unifi_adopt_device" then
    .request ("/v1/sites/" ++ argStr args "siteId" ++ "/devices/" ++ argStr args "deviceId" ++ "/actions") "POST"
      (some [("action", some (JVal.str "ADOPT"))])
  else if name = "unifi_restart_device" then
    .request ("/v1/sites/" ++ argStr args "siteId" ++ "/devices/" ++ argStr args "deviceId" ++ "/actions") "POST"
      (some [("action", some (JVal.str "RESTART"))])
  else if name = "unifi_locate_device" then
    .request ("/v1/sites/" ++ argStr args "siteId" ++ "/devices/" ++ argStr args "deviceId" ++ "/actions") "POST"
      (some [("action", some (JVal.str (if truthy (getArg args "enabled") then "LOCATE_ON" else "LOCATE_OFF")))])
  else if name = "unifi_list_pending_devices" then
    .request ("/v1/pending-devices" ++ buildQueryString args) "GET" none
  else if name = "unifi_power_cycle_port" then
    .request ("/v1/sites/" ++ argStr args "siteId" ++ "/devices/" ++ argStr args "deviceId"
        ++ "/interfaces/ports/" ++ argStr args "portIdx" ++ "/actions") "POST"
      (some [("action", some (JVal.str "POWER_CYCLE"))])
  else if name = "unifi_list_clients" then
    .request ("/v1/sites/" ++ argStr args "siteId" ++ "/clients" ++ buildQueryString args) "GET" none
  else if name = "unifi_get_client" then
    .request ("/v1/sites/" ++ argStr args "siteId" ++ "/clients/" ++ argStr args "clientId") "GET" none
  else if name = "unifi_authorize_guest" then
    .request ("/v1/sites/" ++ argStr args "siteId" ++ "/clients/" ++ argStr args "clientId" ++ "/actions") "POST"
      (some (authBody args))
  else if name = "unifi_list_networks" then
    .request ("/v1/sites/" ++ argStr args "siteId" ++ "/networks" ++ buildQueryString args) "GET" none
  else if name = "unifi_get_network" then
    .request ("/v1/sites/" ++ argStr args "siteId" ++ "/networks/" ++ argStr args "networkId") "GET" none
  else if name = "unifi_create_network" then
    .request ("/v1/sites/" ++ argStr args "siteId" ++ "/networks") "POST" (some (networkBody args))
  else if name = "unifi_update_network" then
    .request ("/v1/sites/" ++ argStr args "siteId" ++ "/networks/" ++ argStr args "networkId") "PUT"
      (some (updateNetworkBody args))
  else if name = "unifi_delete_network" then
    .request (deleteNetworkEndpoint args) "DELETE" none
  else if name = "unifi_get_network_references" then
    .request ("/v1/sites/" ++ argStr args "siteId" ++ "/networks/" ++ argStr args "networkId" ++ "/references") "GET" none
  else if name = "unifi_list_wifi" then
    .request ("/v1/sites/" ++ argStr args "siteId" ++ "/wifi/broadcasts" ++ buildQueryString args) "GET" none
  else if name = "unifi_get_wifi" then
    .request ("/v1/sites/" ++ argStr args "siteId" ++ "/wifi/broadcasts/" ++ argStr args "wifiBroadcastId") "GET" none
  else if name = "unifi_create_wifi" then
    .request ("/v1/sites/" ++ argStr args "siteId" ++ "/wifi/broadcasts") "POST" (some (wifiBody args))
  else if name = "unifi_update_wifi" then
    .request ("/v1/sites/" ++ argStr args "siteId" ++ "/wifi/broadcasts/" ++ argStr args "wifiBroadcastId") "PUT"
      (some (updateWifiBody args))
  else if name = "unifi_delete_wifi" then
    .request (deleteWifiEndpoint args) "DELETE" none
  else if name = "unifi_list_vouchers" then
    .request ("/v1/sites/" ++ argStr args "siteId" ++ "/hotspot/vouchers" ++ buildQueryString args) "GET" none
  else if name = "unifi_get_voucher" then
    .request ("/v1/sites/" ++ argStr args "siteId" ++ "/hotspot/vouchers/" ++ argStr args "voucherId") "GET" none
  else if name = "unifi_create_voucher" then
    .request ("/v1/sites/" ++ argStr args "siteId" ++ "/hotspot/vouchers") "POST" (some (voucherBody args))
  else if name = "unifi_delete_voucher" then
    .request ("/v1/sites/" ++ argStr args "siteId" ++ "/hotspot/vouchers/" ++ argStr args "voucherId") "DELETE" none
  else if name = "unifi_bulk_delete_vouchers" then
    .request (bulkDeleteVouchersEndpoint args) "DELETE" none
  else if name = "unifi_list_firewall_zones" then
    .request ("/v1/sites/" ++ argStr args "siteId" ++ "/firewall/zones" ++ buildQueryString args) "GET" none
  else if name = "unifi_get_firewall_zone" then
    .request ("/v1/sites/" ++ argStr args "siteId" ++ "/firewall/zones/" ++ argStr args "firewallZoneId") "GET" none
  else if name = "unifi_create_firewall_zone" then
    .request ("/v1/sites/" ++ argStr args "siteId" ++ "/firewall/zones") "POST" (some (zoneBody args))
  else if name = "unifi_update_firewall_zone" then
    .request ("/v1/sites/" ++ argStr args "siteId" ++ "/firewall/zones/" ++ argStr args "firewallZoneId") "PUT"
      (some (updateZoneBody args))
  else if name = "unifi_delete_firewall_zone" then
    .request ("/v1/sites/" ++ argStr args "siteId" ++ "/firewall/zones/" ++ argStr args "firewallZoneId") "DELETE" none
  else if name = "unifi_list_acl_rules" then
    .request ("/v1/sites/" ++ argStr args "siteId" ++ "/acl-rules" ++ buildQueryString args) "GET" none
  else if name = "unifi_get_acl_rule" then
    .request ("/v1/sites/" ++ argStr args "siteId" ++ "/acl-rules/" ++ argStr args "aclRuleId") "GET" none
  else if name = "unifi_create_acl_rule" then
    .request ("/v1/sites/" ++ argStr args "siteId" ++ "/acl-rules") "POST" (some (ruleBody args))
  else if name = "unifi_update_acl_rule" then
    .request ("/v1/sites/" ++ argStr args "siteId" ++ "/acl-rules/" ++ argStr args "aclRuleId") "PUT"
      (some (updateRuleBody args))
  else if name = "unifi_delete_acl_rule" then
    .request ("/v1/sites/" ++ argStr args "siteId" ++ "/acl-rules/" ++ argStr args "aclRuleId") "DELETE" none
  else if name = "unifi_list_traffic_matching_lists" then
    .request ("/v1/sites/" ++ argStr args "siteId" ++ "/traffic-matching-lists" ++ buildQueryString args) "GET" none
  else if name = "unifi_get_traffic_matching_list" then
    .request ("/v1/sites/" ++ argStr args "siteId" ++ "/traffic-matching-lists/" ++ argStr args "trafficMatchingListId") "GET" none
  else if name = "unifi_create_traffic_matching_list" then
    .request ("/v1/sites/" ++ argStr args "siteId" ++ "/traffic-matching-lists") "POST" (some (listBody args))
  else if name = "unifi_update_traffic_matching_list" then
    .request ("/v1/sites/" ++ argStr args "siteId" ++ "/traffic-matching-lists/" ++ argStr args "trafficMatchingListId") "PUT"
      (some (updateListBody args))
  else if name = "unifi_delete_traffic_matching_list" then
    .request ("/v1/sites/" ++ argStr args "siteId" ++ "/traffic-matching-lists/" ++ argStr args "trafficMatchingListId") "DELETE" none
  else if name = "unifi_list_wans" then
    .request ("/v1/sites/" ++ argStr args "siteId" ++ "/wans" ++ wansQuery args) "GET" none
  else if name = "unifi_list_vpn_tunnels" then
    .request ("/v1/sites/" ++ argStr args "siteId" ++ "/vpn/site-to-site-tunnels" ++ buildQueryString args) "GET" none
  else if name = "unifi_list_vpn_servers" then
    .request ("/v1/sites/" ++ argStr args "siteId" ++ "/vpn/servers" ++ buildQueryString args) "GET" none
  else if name = "unifi_list_radius_profiles" then
    .request ("/v1/sites/" ++ argStr args "siteId" ++ "/radius/profiles" ++ buildQueryString args) "GET" none
  else if name = "unifi_list_device_tags" then
    .request ("/v1/sites/" ++ argStr args "siteId" ++ "/device-tags" ++ buildQueryString args) "GET" none
  else if name = "unifi_list_dpi_categories" then
    .request ("/v1/dpi/categories" ++ buildQueryString args) "GET" none
  else if name = "unifi_list_dpi_applications" then
    .request ("/v1/dpi/applications" ++ buildQueryString args) "GET" none
  else if name = "unifi_list_countries" then
    .request ("/v1/countries" ++ buildQueryString args) "GET" none
  else
    .unknownTool name

/-- Lowercase hexadecimal digit, as emitted in the control-character
escapes of JSON.stringify. -/
def hexDigitLower (n : Nat) : Char :=
  if n < 10 then Char.ofNat (48 + n) else Char.ofNat (87 + n)

def jsonEscapeChar (c : Char) : String :=
  if c = '"' then "\\\""
  else if c = '\\' then "\\\\"
  else if c = '\n' then "\\n"
  else if c = Char.ofNat 13 then "\\r"
  else if c = '\t' then "\\t"
  else if c = Char.ofNat 8 then "\\b"
  else if c = Char.ofNat 12 then "\\f"
  else if c.toNat < 32 then
    "\\u00" ++ String.singleton (hexDigitLower (c.toNat / 16)) ++ String.singleton (hexDigitLower (c.toNat % 16))
  else String.singleton c

def jsonQuote (s : String) : String :=
  "\"" ++ String.join (s.toList.map jsonEscapeChar) ++ "\""

mutual

/-- Compact `JSON.stringify` of a JSON value. -/
def jsonStringify : JVal → String
  | .str s => jsonQuote s
  | .num n => toString n
  | .bool b => cond b "true" "false"
  | .null => "null"
  | .arr xs => "\x5b" ++ jsonStringifyArr xs ++ "\x5d"
  | .obj fs => "\x7b" ++ jsonStringifyObj fs ++ "\x7d"

def jsonStringifyArr : List JVal → String
  | [] => ""
  | [x] => jsonStringify x
  | x :: xs => jsonStringify x ++ "," ++ jsonStringifyArr xs

def jsonStringifyObj : List (String × JVal) → String
  | [] => ""
  | [(k, v)] => jsonQuote k ++ ":" ++ jsonStringify v
  | (k, v) :: fs => jsonQuote k ++ ":" ++ jsonStringify v ++ "," ++ jsonStringifyObj fs

end

/-- Compact `JSON.stringify` of a record whose properties may be
`undefined`: such properties are dropped. -/
def jsonStringifyRecord (r : JRecord) : String :=
  jsonStringify (JVal.obj (r.filterMap fun p => p.2.map fun v => (p.1, v)))

def padding (d : Nat) : String :=
  String.mk (List.replicate (2 * d) ' ')

mutual

/-- `JSON.stringify(v, null, 2)`: the pretty form used for success
payloads, with two-space indentation. -/
def jsonPretty (d : Nat) : JVal → String
  | .str s => jsonQuote s
  | .num n => toString n
  | .bool b => cond b "true" "false"
  | .null => "null"
  | .arr [] => "\x5b\x5d"
  | .arr (x :: xs) => "\x5b\n" ++ jsonPrettyArr (d + 1) (x :: xs) ++ "\n" ++ padding d ++ "\x5d"
  | .obj [] => "\x7b\x7d"
  | .obj (f :: fs) => "\x7b\n" ++ jsonPrettyObj (d + 1) (f :: fs) ++ "\n" ++ padding d ++ "\x7d"

def jsonPrettyArr (d : Nat) : List JVal → String
  | [] => ""
  | [x] => padding d ++ jsonPretty d x
  | x :: xs => padding d ++ jsonPretty d x ++ ",\n" ++ jsonPrettyArr d xs

def jsonPrettyObj (d : Nat) : List (String × JVal) → String
  | [] => ""
  | [(k, v)] => padding d ++ jsonQuote k ++ ": " ++ jsonPretty d v
  | (k, v) :: fs => padding d ++ jsonQuote k ++ ": " ++ jsonPretty d v ++ ",\n" ++ jsonPrettyObj d fs

end

/-- Process-wide configuration, read once at start. -/
structure Config where
  baseURL : String
  apiKey : String

/-- The concrete request unifiRequest hands to fetch. -/
structure CompiledRequest where
  method : String
  url : String
  headers : List (String × String)
  body : Option String

/-- Request construction inside unifiRequest: fixed accept and
credential headers, content type only when a body is present, URL
prefixed with the integration proxy path, body JSON-serialized. -/
def unifiRequestCompile (cfg : Config) (endpoint : String) (method : String)
    (body : Option JRecord) : CompiledRequest :=
  { method := method,
    url := cfg.baseURL ++ "/proxy/network/integration" ++ endpoint,
    headers := [("Accept", "application/json"), ("X-API-KEY", cfg.apiKey)]
      ++ (if body.isSome then [("Content-Type", "application/json")] else []),
    body := body.map jsonStringifyRecord }

/-- The raw HTTP response seen by unifiRequest: status, body text (as
read by response.text), and the outcome of response.json on the body. -/
structure HttpResponse where
  status : Nat
  text : String
  json : Except String JVal

/-- fetch sets response.ok exactly when the status is 200 to 299. -/
def responseOk (status : Nat) : Bool :=
  200 ≤ status && status ≤ 299

/-- Response handling of unifiRequest: a non-ok status throws an error
embedding the status and the raw body text, a 204 synthesizes a
success payload, anything else parses the body as JSON. -/
def normalizeResponse (resp : HttpResponse) : Except String JVal :=
  if !responseOk resp.status then
    .error ("UniFi API error (" ++ toString resp.status ++ "): " ++ resp.text)
  else if resp.status = 204 then
    .ok (JVal.obj [("success", JVal.bool true)])
  else
    resp.json

/-- Behaviour of the HTTP transport for one request: either the fetch
promise rejects with a message, or a response arrives. -/
inductive ExecOutcome where
  | networkError (msg : String)
  | response (resp : HttpResponse)

/-- The result envelope the handler returns to the caller. -/
structure ToolResult where
  text : String
  isError : Bool

/-- The body of the try block of the CallToolRequestSchema handler, as
an exception monad: dispatch on the tool name, execute the compiled
request through the transport, normalize the response. -/
def pipelineResult (cfg : Config) (exec : CompiledRequest → ExecOutcome)
    (name : String) (args : Args) : Except String JVal :=
  match dispatch name args with
  | .unknownTool n => .error ("Unknown tool: " ++ n)
  | .request endpoint method body =>
    match exec (unifiRequestCompile cfg endpoint method body) with
    | .networkError msg => .error msg
    | .response resp => normalizeResponse resp

/-- The full CallToolRequestSchema handler: a thrown error is caught
and rendered as an Error-prefixed text block with the error flag set, a
success is pretty-printed JSON. -/
def handleCall (cfg : Config) (exec : CompiledRequest → ExecOutcome)
    (name : String) (args : Args) : ToolResult :=
  match pipelineResult cfg exec name args with
  | .error msg => { text := "Error: " ++ msg, isError := true }
  | .ok v => { text := jsonPretty 0 v, isError := false }

/-- Transport behaviour used for concrete failure scenarios: every
request receives a 404 response with a JSON error body. -/
def exec404 : CompiledRequest → ExecOutcome :=
  fun _ => .response ⟨404, "\x7b\"error\":\"not found\"\x7d", .ok .null⟩

lemma append_ne_empty_left (s t : String) (h : s ≠ "") : s ++ t ≠ "" := by
  intro he
  apply h
  have hd : (s ++ t).data = ([] : List Char) := by rw [he]
  rw [String.data_append] at hd
  rcases List.append_eq_nil.mp hd with ⟨h1, _⟩
  exact String.ext h1

/-- C1: the code evaluated at the failing input of the claim.  The
handler performs no required-parameter validation: invoking
unifi_bulk_delete_vouchers with the filter argument absent does not
produce a validation failure; the switch compiles a DELETE request
whose query string is the literal filter=undefined, and this request
is handed to the HTTP executor. -/
theorem bulkDeleteVouchers_missing_filter_still_compiles :
    dispatch "unifi_bulk_delete_vouchers" [("siteId", JVal.str "s1")]
      = CallOutcome.request "/v1/sites/s1/hotspot/vouchers?filter=undefined" "DELETE" none := by
  rfl

/-- C2 counterexample: supplying the falsy-but-defined optional value
cascade = false to unifi_delete_network compiles to exactly the same
request as omitting cascade entirely, with no cascade key in the query
string; likewise count = 0 on unifi_create_voucher is dropped from the
compiled body.  This refutes the claim that falsy-but-defined optional
values are carried into the compiled request. -/
theorem falsy_defined_optionals_dropped :
    (dispatch "unifi_delete_network"
        [("siteId", JVal.str "abc"), ("networkId", JVal.str "n1"), ("cascade", JVal.bool false)]
      = dispatch "unifi_delete_network" [("siteId", JVal.str "abc"), ("networkId", JVal.str "n1")])
    ∧ (dispatch "unifi_delete_network"
        [("siteId", JVal.str "abc"), ("networkId", JVal.str "n1"), ("cascade", JVal.bool false)]
      = CallOutcome.request "/v1/sites/abc/networks/n1" "DELETE" none)
    ∧ (voucherBody [("name", JVal.str "v"), ("timeLimitMinutes", JVal.num 60), ("count", JVal.num 0)]
      = voucherBody [("name", JVal.str "v"), ("timeLimitMinutes", JVal.num 60)]) := by
  refine ⟨rfl, rfl, rfl⟩

/-- C2 amended: optional fields gated on definedness preserve
falsy-but-defined values -- offset = 0 and limit = 0 are carried into
the query string, and enabled = false, vlanId = 0, index = 0 are
carried into update bodies -- and contribute nothing when absent,
while optional fields gated on truthiness (filter, cascade, force,
count, description, type, name, action, authorizedGuestLimit, and the
rate and usage limits) drop a defined falsy value (false, 0, empty
string) exactly as if it were omitted; an omitted field never produces
a key in the query string or body. -/
theorem optional_field_handling :
    (∀ args : Args, getArg args "offset" = some (JVal.num 0) →
        getArg args "limit" = some (JVal.num 0) → truthy (getArg args "filter") = false →
        buildQueryString args = "?offset=0&limit=0")
    ∧ (∀ args : Args, getArg args "offset" = some (JVal.num 0) →
        getArg args "limit" = none → truthy (getArg args "filter") = false →
        buildQueryString args = "?offset=0")
    ∧ (∀ args : Args, getArg args "offset" = none → getArg args "limit" = none →
        getArg args "filter" = some (JVal.str "") →
        buildQueryString args = "")
    ∧ (∀ args : Args, truthy (getArg args "management") = false →
        truthy (getArg args "name") = false →
        getArg args "enabled" = some (JVal.bool false) → getArg args "vlanId" = some (JVal.num 0) →
        updateNetworkBody args = [("enabled", some (JVal.bool false)), ("vlanId", some (JVal.num 0))])
    ∧ (∀ (args : Args) (v w : JVal), getArg args "cascade" = some v →
        truthy (some v) = false → getArg args "force" = some w → truthy (some w) = false →
        deleteNetworkEndpoint args
          = "/v1/sites/" ++ argStr args "siteId" ++ "/networks/" ++ argStr args "networkId")
    ∧ (∀ (args : Args) (n t : JVal), getArg args "name" = some n →
        getArg args "timeLimitMinutes" = some t →
        truthy (getArg args "count") = false →
        truthy (getArg args "authorizedGuestLimit") = false →
        truthy (getArg args "dataUsageLimitMBytes") = false →
        truthy (getArg args "rxRateLimitKbps") = false →
        truthy (getArg args "txRateLimitKbps") = false →
        voucherBody args = [("name", some n), ("timeLimitMinutes", some t)])
    ∧ (∀ args : Args, truthy (getArg args "type") = false →
        truthy (getArg args "name") = false → getArg args "enabled" = none →
        truthy (getArg args "action") = false → getArg args "index" = some (JVal.num 0) →
        truthy (getArg args "description") = false →
        updateRuleBody args = [("index", some (JVal.num 0))]) := by
  refine ⟨?_, ?_, ?_, ?_, ?_, ?_, ?_⟩
  · intro args h1 h2 h3
    unfold buildQueryString queryParams
    rw [h1, h2, h3]
    rfl
  · intro args h1 h2 h3
    unfold buildQueryString queryParams
    rw [h1, h2, h3]
    rfl
  · intro args h1 h2 h3
    unfold buildQueryString queryParams
    rw [h1, h2, h3]
    rfl
  · intro args h1 h2 h3 h4
    unfold updateNetworkBody
    rw [h1, h2, h3, h4]
    rfl
  · intro args v w h1 h2 h3 h4
    unfold deleteNetworkEndpoint
    rw [h1, h2, h3, h4]
    rfl
  · intro args n t h1 h2 h3 h4 h5 h6 h7
    unfold voucherBody
    rw [h1, h2, h3, h4, h5, h6, h7]
    rfl
  · intro args h1 h2 h3 h4 h5 h6
    unfold updateRuleBody
    rw [h1, h2, h3, h4, h5, h6]
    rfl

/-- C2 witness: the amended claim applied at concrete inputs,
exercising the preserved falsy values offset = 0, limit = 0,
enabled = false, vlanId = 0 and index = 0, and the dropped falsy
values filter = empty string and count = 0, rxRateLimitKbps = 0. -/
theorem optional_field_handling_witness :
    buildQueryString [("offset", JVal.num 0), ("limit", JVal.num 0)] = "?offset=0&limit=0"
    ∧ buildQueryString [("filter", JVal.str "")] = ""
    ∧ updateNetworkBody [("enabled", JVal.bool false), ("vlanId", JVal.num 0)]
        = [("enabled", some (JVal.bool false)), ("vlanId", some (JVal.num 0))]
    ∧ voucherBody [("name", JVal.str "v"), ("timeLimitMinutes", JVal.num 60),
          ("count", JVal.num 0), ("rxRateLimitKbps", JVal.num 0)]
        = [("name", some (JVal.str "v")), ("timeLimitMinutes", some (JVal.num 60))]
    ∧ updateRuleBody [("index", JVal.num 0)] = [("index", some (JVal.num 0))] :=
  ⟨optional_field_handling.1 _ rfl rfl rfl,
   optional_field_handling.2.2.1 _ rfl rfl rfl,
   optional_field_handling.2.2.2.1 _ rfl rfl rfl rfl,
   optional_field_handling.2.2.2.2.2.1 _ _ _ rfl rfl rfl rfl rfl rfl rfl,
   optional_field_handling.2.2.2.2.2.2 _ rfl rfl rfl rfl rfl rfl⟩

/-- C3: whenever the transport returns a response whose status is
outside the 2xx success range, the invocation normalizes to a failure
envelope whose text embeds the numeric status code and the raw
response body text unmodified, with the error flag set. -/
theorem non2xx_normalizes_to_failure :
    ∀ (cfg : Config) (exec : CompiledRequest → ExecOutcome) (name : String) (args : Args)
      (e m : String) (b : Option JRecord) (resp : HttpResponse),
      dispatch name args = CallOutcome.request e m b →
      exec (unifiRequestCompile cfg e m b) = ExecOutcome.response resp →
      responseOk resp.status = false →
      handleCall cfg exec name args =
        { text := "Error: " ++ ("UniFi API error (" ++ toString resp.status ++ "): " ++ resp.text),
          isError := true } := by
  intro cfg exec name args e m b resp h1 h2 h3
  simp only [handleCall, pipelineResult, h1, h2, normalizeResponse, h3, Bool.not_false, if_true]

/-- C3 witness: scenario D of the specification.  A downstream 404
response with body text of a JSON error object normalizes to a failure
whose text reads exactly as the specification states. -/
theorem non2xx_normalizes_to_failure_witness :
    handleCall ⟨"https://host", "key"⟩ exec404 "unifi_get_info" []
      = { text := "Error: UniFi API error (404): \x7b\"error\":\"not found\"\x7d",
          isError := true } :=
  non2xx_normalizes_to_failure ⟨"https://host", "key"⟩ exec404 "unifi_get_info" []
    "/v1/info" "GET" none ⟨404, "\x7b\"error\":\"not found\"\x7d", Except.ok JVal.null⟩
    rfl rfl rfl

/-- C4: a 204 response normalizes to a synthesized success payload
with a single field success = true.  The normalizer never consults the
request method, so this holds for every method. -/
theorem status204_normalizes_to_success :
    ∀ resp : HttpResponse, resp.status = 204 →
      normalizeResponse resp = Except.ok (JVal.obj [("success", JVal.bool true)]) := by
  intro resp h
  unfold normalizeResponse
  rw [h]
  rfl

/-- C4 witness: the 204 rule applied to a concrete empty response. -/
theorem status204_normalizes_to_success_witness :
    normalizeResponse ⟨204, "", Except.ok JVal.null⟩
      = Except.ok (JVal.obj [("success", JVal.bool true)]) :=
  status204_normalizes_to_success _ rfl

/-- C5: scenario A of the specification.  Invoking unifi_list_networks
with siteId abc and limit 10 compiles to a GET request whose path is
/v1/sites/abc/networks and whose query string is limit=10. -/
theorem listNetworks_scenarioA :
    dispatch "unifi_list_networks" [("siteId", JVal.str "abc"), ("limit", JVal.num 10)]
      = CallOutcome.request "/v1/sites/abc/networks?limit=10" "GET" none := by
  rfl

/-- C7: query-string construction is deterministic, order-stable and
idempotent.  The compiled query depends only on the values bound to
offset, limit and filter (never on the insertion order of the argument
map), compiling twice yields identical strings, an empty parameter set
yields no question-mark suffix, and when all three keys participate
they are rendered in the fixed order offset, limit, filter. -/
theorem buildQueryString_deterministic_ordered :
    (∀ a1 a2 : Args, getArg a1 "offset" = getArg a2 "offset" →
        getArg a1 "limit" = getArg a2 "limit" → getArg a1 "filter" = getArg a2 "filter" →
        buildQueryString a1 = buildQueryString a2)
    ∧ (∀ a : Args, buildQueryString a = buildQueryString a)
    ∧ (∀ a : Args, getArg a "offset" = none → getArg a "limit" = none →
        truthy (getArg a "filter") = false → buildQueryString a = "")
    ∧ (∀ (a : Args) (off lim fil : JVal), getArg a "offset" = some off →
        getArg a "limit" = some lim → getArg a "filter" = some fil →
        truthy (some fil) = true →
        queryParams a = [("offset", tsStringVal off), ("limit", tsStringVal lim),
          ("filter", tsStringVal fil)])
    ∧ buildQueryString [("filter", JVal.str "a"), ("limit", JVal.num 2), ("offset", JVal.num 1)]
        = "?offset=1&limit=2&filter=a" := by
  refine ⟨?_, fun _ => rfl, ?_, ?_, rfl⟩
  · intro a1 a2 h1 h2 h3
    unfold buildQueryString queryParams
    rw [h1, h2, h3]
  · intro a h1 h2 h3
    unfold buildQueryString queryParams
    rw [h1, h2, h3]
    rfl
  · intro a off lim fil h1 h2 h3 h4
    unfold queryParams
    rw [h1, h2, h3, h4]
    rfl

/-- C7 witness: order stability applied to two permutations of the
same argument map. -/
theorem buildQueryString_deterministic_witness :
    buildQueryString [("limit", JVal.num 2), ("offset", JVal.num 1)]
      = buildQueryString [("offset", JVal.num 1), ("limit", JVal.num 2)] :=
  buildQueryString_deterministic_ordered.1 _ _ rfl rfl rfl

/-- C8: every compiled request carries the fixed accept and credential
headers, carries the JSON content-type header exactly when a body is
present, and is issued against the configured base URL extended with
the integration proxy prefix and the compiled path. -/
theorem executor_headers_and_url :
    ∀ (cfg : Config) (endpoint method : String) (body : Option JRecord),
      (unifiRequestCompile cfg endpoint method body).url
          = cfg.baseURL ++ "/proxy/network/integration" ++ endpoint
      ∧ ("Accept", "application/json") ∈ (unifiRequestCompile cfg endpoint method body).headers
      ∧ ("X-API-KEY", cfg.apiKey) ∈ (unifiRequestCompile cfg endpoint method body).headers
      ∧ ((("Content-Type", "application/json") ∈ (unifiRequestCompile cfg endpoint method body).headers)
          ↔ body.isSome = true) := by
  intro cfg endpoint method body
  refine ⟨rfl, ?_, ?_, ?_⟩
  · simp [unifiRequestCompile]
  · simp [unifiRequestCompile]
  · cases body <;> simp [unifiRequestCompile]

/-- C9: every invocation terminates in exactly one result envelope.  A
failing pipeline (unknown tool, network failure, or API error) is
reported through the normal result channel as a text block reading
Error followed by the message, with the error flag set; a succeeding
pipeline yields the serialized payload with the flag clear.  In
particular an unknown tool name is contained to the invocation. -/
theorem failures_contained_in_envelope :
    ∀ (cfg : Config) (exec : CompiledRequest → ExecOutcome) (name : String) (args : Args),
      ((∃ msg, pipelineResult cfg exec name args = Except.error msg
          ∧ handleCall cfg exec name args = { text := "Error: " ++ msg, isError := true })
        ∨ (∃ v, pipelineResult cfg exec name args = Except.ok v
          ∧ handleCall cfg exec name args = { text := jsonPretty 0 v, isError := false }))
      ∧ (∀ n, dispatch name args = CallOutcome.unknownTool n →
          handleCall cfg exec name args
            = { text := "Error: Unknown tool: " ++ n, isError := true }) := by
  intro cfg exec name args
  constructor
  · cases hp : pipelineResult cfg exec name args with
    | error msg => exact Or.inl ⟨msg, rfl, by unfold handleCall; rw [hp]⟩
    | ok v => exact Or.inr ⟨v, rfl, by unfold handleCall; rw [hp]⟩
  · intro n h
    unfold handleCall pipelineResult
    rw [h]
    show ToolResult.mk ("Error: " ++ ("Unknown tool: " ++ n)) true = _
    rw [← String.append_assoc]
    rfl

/-- C9 witness: an invocation of an undefined tool name returns the
contained error envelope. -/
theorem failures_contained_witness :
    handleCall ⟨"https://host", "key"⟩ exec404 "unifi_frobnicate" []
      = { text := "Error: Unknown tool: unifi_frobnicate", isError := true } :=
  (failures_contained_in_envelope ⟨"https://host", "key"⟩ exec404 "unifi_frobnicate" []).2 _ rfl

/-- C10: for every tool in the catalogue whose resource path embeds an
identifier placeholder, an absent identifier argument still compiles:
the identifier position holds the literal text undefined and the
request is handed to the HTTP executor.  The first three conjuncts
state this for arbitrary argument maps lacking the identifier; the
remaining conjuncts enumerate every placeholder-bearing tool of the
catalogue (all 46 of them, the six placeholder-free tools excepted) at
the empty argument map, including the bulk voucher delete whose query
string becomes filter=undefined. -/
theorem missing_identifiers_render_undefined :
    (∀ args : Args, getArg args "siteId" = none → getArg args "offset" = none →
        getArg args "limit" = none → truthy (getArg args "filter") = false →
        dispatch "unifi_list_devices" args
          = CallOutcome.request "/v1/sites/undefined/devices" "GET" none)
    ∧ (∀ args : Args, getArg args "siteId" = none → getArg args "deviceId" = none →
        dispatch "unifi_get_device" args
          = CallOutcome.request "/v1/sites/undefined/devices/undefined" "GET" none)
    ∧ (∀ (args : Args) (s : String), getArg args "siteId" = some (JVal.str s) →
        getArg args "filter" = none →
        dispatch "unifi_bulk_delete_vouchers" args
          = CallOutcome.request ("/v1/sites/" ++ s ++ "/hotspot/vouchers?filter=undefined")
              "DELETE" none)
    ∧ (dispatch "unifi_list_devices" []
        = CallOutcome.request "/v1/sites/undefined/devices" "GET" none)
    ∧ (dispatch "unifi_get_device" []
        = CallOutcome.request "/v1/sites/undefined/devices/undefined" "GET" none)
    ∧ (dispatch "unifi_get_device_statistics" []
        = CallOutcome.request "/v1/sites/undefined/devices/undefined/statistics/latest" "GET" none)
    ∧ (dispatch "unifi_adopt_device" []
        = CallOutcome.request "/v1/sites/undefined/devices/undefined/actions" "POST" (some [("action", some (JVal.str "ADOPT"))]))
    ∧ (dispatch "unifi_restart_device" []
        = CallOutcome.request "/v1/sites/undefined/devices/undefined/actions" "POST" (some [("action", some (JVal.str "RESTART"))]))
    ∧ (dispatch "unifi_locate_device" []
        = CallOutcome.request "/v1/sites/undefined/devices/undefined/actions" "POST" (some [("action", some (JVal.str "LOCATE_OFF"))]))
    ∧ (dispatch "unifi_power_cycle_port" []
        = CallOutcome.request "/v1/sites/undefined/devices/undefined/interfaces/ports/undefined/actions" "POST" (some [("action", some (JVal.str "POWER_CYCLE"))]))
    ∧ (dispatch "unifi_list_clients" []
        = CallOutcome.request "/v1/sites/undefined/clients" "GET" none)
    ∧ (dispatch "unifi_get_client" []
        = CallOutcome.request "/v1/sites/undefined/clients/undefined" "GET" none)
    ∧ (dispatch "unifi_authorize_guest" []
        = CallOutcome.request "/v1/sites/undefined/clients/undefined/actions" "POST" (some [("action", some (JVal.str "AUTHORIZE_GUEST_ACCESS"))]))
    ∧ (dispatch "unifi_list_networks" []
        = CallOutcome.request "/v1/sites/undefined/networks" "GET" none)
    ∧ (dispatch "unifi_get_network" []
        = CallOutcome.request "/v1/sites/undefined/networks/undefined" "GET" none)
    ∧ (dispatch "unifi_create_network" []
        = CallOutcome.request "/v1/sites/undefined/networks" "POST" (some [("management", none), ("name", none), ("enabled", none), ("vlanId", none)]))
    ∧ (dispatch "unifi_update_network" []
        = CallOutcome.request "/v1/sites/undefined/networks/undefined" "PUT" (some []))
    ∧ (dispatch "unifi_delete_network" []
        = CallOutcome.request "/v1/sites/undefined/networks/undefined" "DELETE" none)
    ∧ (dispatch "unifi_get_network_references" []
        = CallOutcome.request "/v1/sites/undefined/networks/undefined/references" "GET" none)
    ∧ (dispatch "unifi_list_wifi" []
        = CallOutcome.request "/v1/sites/undefined/wifi/broadcasts" "GET" none)
    ∧ (dispatch "unifi_get_wifi" []
        = CallOutcome.request "/v1/sites/undefined/wifi/broadcasts/undefined" "GET" none)
    ∧ (dispatch "unifi_create_wifi" []
        = CallOutcome.request "/v1/sites/undefined/wifi/broadcasts" "POST" (some [("type", some (JVal.str "STANDARD")), ("name", none), ("enabled", none), ("broadcastingFrequenciesGHz", none)]))
    ∧ (dispatch "unifi_update_wifi" []
        = CallOutcome.request "/v1/sites/undefined/wifi/broadcasts/undefined" "PUT" (some []))
    ∧ (dispatch "unifi_delete_wifi" []
        = CallOutcome.request "/v1/sites/undefined/wifi/broadcasts/undefined" "DELETE" none)
    ∧ (dispatch "unifi_list_vouchers" []
        = CallOutcome.request "/v1/sites/undefined/hotspot/vouchers" "GET" none)
    ∧ (dispatch "unifi_get_voucher" []
        = CallOutcome.request "/v1/sites/undefined/hotspot/vouchers/undefined" "GET" none)
    ∧ (dispatch "unifi_create_voucher" []
        = CallOutcome.request "/v1/sites/undefined/hotspot/vouchers" "POST" (some [("name", none), ("timeLimitMinutes", none)]))
    ∧ (dispatch "unifi_delete_voucher" []
        = CallOutcome.request "/v1/sites/undefined/hotspot/vouchers/undefined" "DELETE" none)
    ∧ (dispatch "unifi_bulk_delete_vouchers" []
        = CallOutcome.request "/v1/sites/undefined/hotspot/vouchers?filter=undefined" "DELETE" none)
    ∧ (dispatch "unifi_list_firewall_zones" []
        = CallOutcome.request "/v1/sites/undefined/firewall/zones" "GET" none)
    ∧ (dispatch "unifi_get_firewall_zone" []
        = CallOutcome.request "/v1/sites/undefined/firewall/zones/undefined" "GET" none)
    ∧ (dispatch "unifi_create_firewall_zone" []
        = CallOutcome.request "/v1/sites/undefined/firewall/zones" "POST" (some [("name", none), ("networkIds", some (JVal.arr []))]))
    ∧ (dispatch "unifi_update_firewall_zone" []
        = CallOutcome.request "/v1/sites/undefined/firewall/zones/undefined" "PUT" (some [("name", none), ("networkIds", none)]))
    ∧ (dispatch "unifi_delete_firewall_zone" []
        = CallOutcome.request "/v1/sites/undefined/firewall/zones/undefined" "DELETE" none)
    ∧ (dispatch "unifi_list_acl_rules" []
        = CallOutcome.request "/v1/sites/undefined/acl-rules" "GET" none)
    ∧ (dispatch "unifi_get_acl_rule" []
        = CallOutcome.request "/v1/sites/undefined/acl-rules/undefined" "GET" none)
    ∧ (dispatch "unifi_create_acl_rule" []
        = CallOutcome.request "/v1/sites/undefined/acl-rules" "POST" (some [("type", some (JVal.str "IPV4")), ("name", none), ("enabled", none), ("action", none), ("index", none)]))
    ∧ (dispatch "unifi_update_acl_rule" []
        = CallOutcome.request "/v1/sites/undefined/acl-rules/undefined" "PUT" (some []))
    ∧ (dispatch "unifi_delete_acl_rule" []
        = CallOutcome.request "/v1/sites/undefined/acl-rules/undefined" "DELETE" none)
    ∧ (dispatch "unifi_list_traffic_matching_lists" []
        = CallOutcome.request "/v1/sites/undefined/traffic-matching-lists" "GET" none)
    ∧ (dispatch "unifi_get_traffic_matching_list" []
        = CallOutcome.request "/v1/sites/undefined/traffic-matching-lists/undefined" "GET" none)
    ∧ (dispatch "unifi_create_traffic_matching_list" []
        = CallOutcome.request "/v1/sites/undefined/traffic-matching-lists" "POST" (some [("type", none), ("name", none), ("items", none)]))
    ∧ (dispatch "unifi_update_traffic_matching_list" []
        = CallOutcome.request "/v1/sites/undefined/traffic-matching-lists/undefined" "PUT" (some []))
    ∧ (dispatch "unifi_delete_traffic_matching_list" []
        = CallOutcome.request "/v1/sites/undefined/traffic-matching-lists/undefined" "DELETE" none)
    ∧ (dispatch "unifi_list_wans" []
        = CallOutcome.request "/v1/sites/undefined/wans" "GET" none)
    ∧ (dispatch "unifi_list_vpn_tunnels" []
        = CallOutcome.request "/v1/sites/undefined/vpn/site-to-site-tunnels" "GET" none)
    ∧ (dispatch "unifi_list_vpn_servers" []
        = CallOutcome.request "/v1/sites/undefined/vpn/servers" "GET" none)
    ∧ (dispatch "unifi_list_radius_profiles" []
        = CallOutcome.request "/v1/sites/undefined/radius/profiles" "GET" none)
    ∧ (dispatch "unifi_list_device_tags" []
        = CallOutcome.request "/v1/sites/undefined/device-tags" "GET" none) := by
  refine ⟨?_, ?_, ?_, rfl, rfl, rfl, rfl, rfl, rfl, rfl, rfl, rfl, rfl, rfl, rfl, rfl, rfl, rfl, rfl, rfl, rfl, rfl, rfl, rfl, rfl, rfl, rfl, rfl, rfl, rfl, rfl, rfl, rfl, rfl, rfl, rfl, rfl, rfl, rfl, rfl, rfl, rfl, rfl, rfl, rfl, rfl, rfl, rfl, rfl⟩
  · intro args h1 h2 h3 h4
    have hd : dispatch "unifi_list_devices" args
        = CallOutcome.request ("/v1/sites/" ++ argStr args "siteId" ++ "/devices"
            ++ buildQueryString args) "GET" none := rfl
    rw [hd]
    unfold argStr buildQueryString queryParams
    rw [h1, h2, h3, h4]
    rfl
  · intro args h1 h2
    have hd : dispatch "unifi_get_device" args
        = CallOutcome.request ("/v1/sites/" ++ argStr args "siteId" ++ "/devices/"
            ++ argStr args "deviceId") "GET" none := rfl
    rw [hd]
    unfold argStr
    rw [h1, h2]
    rfl
  · intro args s h1 h2
    have hd : dispatch "unifi_bulk_delete_vouchers" args
        = CallOutcome.request (bulkDeleteVouchersEndpoint args) "DELETE" none := rfl
    rw [hd]
    unfold bulkDeleteVouchersEndpoint argStr
    rw [h1, h2]
    show CallOutcome.request ("/v1/sites/" ++ s ++ "/hotspot/vouchers?filter="
        ++ encodeURIComponent (tsString none)) "DELETE" none = _
    rw [String.append_assoc ("/v1/sites/" ++ s)]
    rfl

/-- C10 witness: the bulk-delete conjunct applied at a concrete site
with the filter argument absent. -/
theorem missing_identifiers_witness :
    dispatch "unifi_bulk_delete_vouchers" [("siteId", JVal.str "abc")]
      = CallOutcome.request "/v1/sites/abc/hotspot/vouchers?filter=undefined" "DELETE" none :=
  missing_identifiers_render_undefined.2.2.1 [("siteId", JVal.str "abc")] "abc" rfl rfl

/-- C6: across the whole catalogue, a compiled request carries a JSON
body if and only if its method is POST or PUT; no GET or DELETE request
ever carries a body, and when no body applies the body option is none
(omitted entirely, not null or an empty object). -/
theorem body_iff_post_or_put :
    ∀ (name : String) (args : Args) (e m : String) (b : Option JRecord),
      dispatch name args = CallOutcome.request e m b →
      (b.isSome = true ↔ (m = "POST" ∨ m = "PUT")) := by
  intro name args e m b h
  by_cases hc1 : name = "unifi_get_info"
  · subst hc1
    injection h with he hm hb
    subst hm; subst hb
    simp
  by_cases hc2 : name = "unifi_list_sites"
  · subst hc2
    injection h with he hm hb
    subst hm; subst hb
    simp
  by_cases hc3 : name = "unifi_list_devices"
  · subst hc3
    injection h with he hm hb
    subst hm; subst hb
    simp
  by_cases hc4 : name = "unifi_get_device"
  · subst hc4
    injection h with he hm hb
    subst hm; subst hb
    simp
  by_cases hc5 : name = "unifi_get_device_statistics"
  · subst hc5
    injection h with he hm hb
    subst hm; subst hb
    simp
  by_cases hc6 : name = "unifi_adopt_device"
  · subst hc6
    injection h with he hm hb
    subst hm; subst hb
    simp
  by_cases hc7 : name = "unifi_restart_device"
  · subst hc7
    injection h with he hm hb
    subst hm; subst hb
    simp
  by_cases hc8 : name = "unifi_locate_device"
  · subst hc8
    injection h with he hm hb
    subst hm; subst hb
    simp
  by_cases hc9 : name = "unifi_list_pending_devices"
  · subst hc9
    injection h with he hm hb
    subst hm; subst hb
    simp
  by_cases hc10 : name = "unifi_power_cycle_port"
  · subst hc10
    injection h with he hm hb
    subst hm; subst hb
    simp
  by_cases hc11 : name = "unifi_list_clients"
  · subst hc11
    injection h with he hm hb
    subst hm; subst hb
    simp
  by_cases hc12 : name = "unifi_get_client"
  · subst hc12
    injection h with he hm hb
    subst hm; subst hb
    simp
  by_cases hc13 : name = "unifi_authorize_guest"
  · subst hc13
    injection h with he hm hb
    subst hm; subst hb
    simp
  by_cases hc14 : name = "unifi_list_networks"
  · subst hc14
    injection h with he hm hb
    subst hm; subst hb
    simp
  by_cases hc15 : name = "unifi_get_network"
  · subst hc15
    injection h with he hm hb
    subst hm; subst hb
    simp
  by_cases hc16 : name = "unifi_create_network"
  · subst hc16
    injection h with he hm hb
    subst hm; subst hb
    simp
  by_cases hc17 : name = "unifi_update_network"
  · subst hc17
    injection h with he hm hb
    subst hm; subst hb
    simp
  by_cases hc18 : name = "unifi_delete_network"
  · subst hc18
    injection h with he hm hb
    subst hm; subst hb
    simp
  by_cases hc19 : name = "unifi_get_network_references"
  · subst hc19
    injection h with he hm hb
    subst hm; subst hb
    simp
  by_cases hc20 : name = "unifi_list_wifi"
  · subst hc20
    injection h with he hm hb
    subst hm; subst hb
    simp
  by_cases hc21 : name = "unifi_get_wifi"
  · subst hc21
    injection h with he hm hb
    subst hm; subst hb
    simp
  by_cases hc22 : name = "unifi_create_wifi"
  · subst hc22
    injection h with he hm hb
    subst hm; subst hb
    simp
  by_cases hc23 : name = "unifi_update_wifi"
  · subst hc23
    injection h with he hm hb
    subst hm; subst hb
    simp
  by_cases hc24 : name = "unifi_delete_wifi"
  · subst hc24
    injection h with he hm hb
    subst hm; subst hb
    simp
  by_cases hc25 : name = "unifi_list_vouchers"
  · subst hc25
    injection h with he hm hb
    subst hm; subst hb
    simp
  by_cases hc26 : name = "unifi_get_voucher"
  · subst hc26
    injection h with he hm hb
    subst hm; subst hb
    simp
  by_cases hc27 : name = "unifi_create_voucher"
  · subst hc27
    injection h with he hm hb
    subst hm; subst hb
    simp
  by_cases hc28 : name = "unifi_delete_voucher"
  · subst hc28
    injection h with he hm hb
    subst hm; subst hb
    simp
  by_cases hc29 : name = "unifi_bulk_delete_vouchers"
  · subst hc29
    injection h with he hm hb
    subst hm; subst hb
    simp
  by_cases hc30 : name = "unifi_list_firewall_zones"
  · subst hc30
    injection h with he hm hb
    subst hm; subst hb
    simp
  by_cases hc31 : name = "unifi_get_firewall_zone"
  · subst hc31
    injection h with he hm hb
    subst hm; subst hb
    simp
  by_cases hc32 : name = "unifi_create_firewall_zone"
  · subst hc32
    injection h with he hm hb
    subst hm; subst hb
    simp
  by_cases hc33 : name = "unifi_update_firewall_zone"
  · subst hc33
    injection h with he hm hb
    subst hm; subst hb
    simp
  by_cases hc34 : name = "unifi_delete_firewall_zone"
  · subst hc34
    injection h with he hm hb
    subst hm; subst hb
    simp
  by_cases hc35 : name = "unifi_list_acl_rules"
  · subst hc35
    injection h with he hm hb
    subst hm; subst hb
    simp
  by_cases hc36 : name = "unifi_get_acl_rule"
  · subst hc36
    injection h with he hm hb
    subst hm; subst hb
    simp
  by_cases hc37 : name = "unifi_create_acl_rule"
  · subst hc37
    injection h with he hm hb
    subst hm; subst hb
    simp
  by_cases hc38 : name = "unifi_update_acl_rule"
  · subst hc38
    injection h with he hm hb
    subst hm; subst hb
    simp
  by_cases hc39 : name = "unifi_delete_acl_rule"
  · subst hc39
    injection h with he hm hb
    subst hm; subst hb
    simp
  by_cases hc40 : name = "unifi_list_traffic_matching_lists"
  · subst hc40
    injection h with he hm hb
    subst hm; subst hb
    simp
  by_cases hc41 : name = "unifi_get_traffic_matching_list"
  · subst hc41
    injection h with he hm hb
    subst hm; subst hb
    simp
  by_cases hc42 : name = "unifi_create_traffic_matching_list"
  · subst hc42
    injection h with he hm hb
    subst hm; subst hb
    simp
  by_cases hc43 : name = "unifi_update_traffic_matching_list"
  · subst hc43
    injection h with he hm hb
    subst hm; subst hb
    simp
  by_cases hc44 : name = "unifi_delete_traffic_matching_list"
  · subst hc44
    injection h with he hm hb
    subst hm; subst hb
    simp
  by_cases hc45 : name = "unifi_list_wans"
  · subst hc45
    injection h with he hm hb
    subst hm; subst hb
    simp
  by_cases hc46 : name = "unifi_list_vpn_tunnels"
  · subst hc46
    injection h with he hm hb
    subst hm; subst hb
    simp
  by_cases hc47 : name = "unifi_list_vpn_servers"
  · subst hc47
    injection h with he hm hb
    subst hm; subst hb
    simp
  by_cases hc48 : name = "unifi_list_radius_profiles"
  · subst hc48
    injection h with he hm hb
    subst hm; subst hb
    simp
  by_cases hc49 : name = "unifi_list_device_tags"
  · subst hc49
    injection h with he hm hb
    subst hm; subst hb
    simp
  by_cases hc50 : name = "unifi_list_dpi_categories"
  · subst hc50
    injection h with he hm hb
    subst hm; subst hb
    simp
  by_cases hc51 : name = "unifi_list_dpi_applications"
  · subst hc51
    injection h with he hm hb
    subst hm; subst hb
    simp
  by_cases hc52 : name = "unifi_list_countries"
  · subst hc52
    injection h with he hm hb
    subst hm; subst hb
    simp
  unfold dispatch at h
  rw [if_neg hc1, if_neg hc2, if_neg hc3, if_neg hc4, if_neg hc5, if_neg hc6, if_neg hc7, if_neg hc8, if_neg hc9, if_neg hc10, if_neg hc11, if_neg hc12, if_neg hc13, if_neg hc14, if_neg hc15, if_neg hc16, if_neg hc17, if_neg hc18, if_neg hc19, if_neg hc20, if_neg hc21, if_neg hc22, if_neg hc23, if_neg hc24, if_neg hc25, if_neg hc26, if_neg hc27, if_neg hc28, if_neg hc29, if_neg hc30, if_neg hc31, if_neg hc32, if_neg hc33, if_neg hc34, if_neg hc35, if_neg hc36, if_neg hc37, if_neg hc38, if_neg hc39, if_neg hc40, if_neg hc41, if_neg hc42, if_neg hc43, if_neg hc44, if_neg hc45, if_neg hc46, if_neg hc47, if_neg hc48, if_neg hc49, if_neg hc50, if_neg hc51, if_neg hc52] at h
  exact CallOutcome.noConfusion h

/-- C6 witness: the invariant applied to a concrete POST action
request, whose body is present. -/
theorem body_iff_post_or_put_witness :
    ((some [("action", some (JVal.str "RESTART"))] : Option JRecord).isSome = true
      ↔ ("POST" = "POST" ∨ "POST" = "PUT")) :=
  body_iff_post_or_put "unifi_restart_device" []
    "/v1/sites/undefined/devices/undefined/actions" "POST"
    (some [("action", some (JVal.str "RESTART"))]) rfl
